import Mathlib

/-!
Verification of the WCPMS QGIS plugin client
(`src/wcpms_plugin/controller/wcpms_client.py`).

The development shallowly embeds the request/response adapter and the
chart-annotation builders of `wcpms_client.py`:

* JSON values are an inductive `Json`; a Python dict obtained from
  `json.loads` keeps the *last* occurrence of a duplicated key, which
  `pydict_get` mirrors.
* An HTTP response is its status code plus its parsed body
  (`none` when the body is not valid JSON).  `requests.Response.json()`
  never inspects the status code; it raises a decode error exactly when
  the body is not valid JSON — `response_json` mirrors this.
* Each adapter operation (`get_phenometrics`, `get_collections`,
  `get_description`, `get_timeseries_region`, `get_phenometrics_region`)
  is embedded as a function producing the single `Request` it issues and
  the `Except`-valued unwrapping of the server's `Response`.  None of the
  operations calls `raise_for_status`, so the embedding never inspects
  `Response.status_code`.
* Errors that Python raises become `Except.error` values of `PyError`.
-/

/-- JSON values, as decoded by `json.loads`.  Numbers are modelled as
rationals (every numeric literal in the repository's payloads is a
decimal). -/
inductive Json where
  | null : Json
  | bool (b : Bool) : Json
  | num (q : ℚ) : Json
  | str (s : String) : Json
  | arr (xs : List Json) : Json
  | obj (fields : List (String × Json)) : Json

/-- The Python exceptions the client code can raise, as surfaced to the
caller.  `httpError` is the `requests.HTTPError` that
`Response.raise_for_status()` would raise for a non-2xx status; it is part
of the error vocabulary of the module's docstrings. -/
inductive PyError where
  | transportError : PyError
  | decodeError : PyError
  | httpError (status : ℕ) : PyError
  | keyError (key : String) : PyError
  | typeError : PyError
  | nameError (name : String) : PyError
deriving DecidableEq

/-- Lookup in a Python dict built by `json.loads`: with duplicate keys in
the JSON text, the *last* occurrence wins, which the left fold mirrors. -/
def pydict_get (fields : List (String × Json)) (key : String) : Option Json :=
  fields.foldl (fun acc kv => if kv.1 = key then some kv.2 else acc) none

/-- Python's `value[key]` for a string key: `KeyError` when the key is
absent from a dict, `TypeError` when `value` is not a dict. -/
def json_index (j : Json) (key : String) : Except PyError Json :=
  match j with
  | .obj fields =>
    match pydict_get fields key with
    | some v => .ok v
    | none => .error (.keyError key)
  | _ => .error .typeError

/-- An HTTP response: the status code and the parsed JSON body
(`none` when the body is not valid JSON). -/
structure Response where
  status_code : ℕ
  body : Option Json

/-- The single HTTP request an adapter operation issues.  For GET requests
the query string is part of `url`; `body` is the JSON payload of a POST. -/
structure Request where
  method : String
  url : String
  body : Option Json

/-- `requests.Response.json()`: parses the body, raising a decode error
(a `ValueError`) exactly when the body is not valid JSON.  It never
inspects the HTTP status code. -/
def response_json (resp : Response) : Except PyError Json :=
  match resp.body with
  | some j => .ok j
  | none => .error .decodeError

/-- The cube descriptor: the dictionary produced by `cube_query`
(`wcpms_client.py` lines 132-161), with its five fields. -/
structure CubeDescriptor where
  collection : String
  band : String
  start_date : String
  end_date : String
  freq : String
deriving DecidableEq

/-- `cube_query(collection, start_date, end_date, freq, band)`
(lines 132-161): packs its arguments into a cube descriptor. -/
def cube_query (collection start_date end_date freq band : String) : CubeDescriptor :=
  { collection := collection
    band := band
    start_date := start_date
    end_date := end_date
    freq := freq }

/-- One hexadecimal digit. -/
def hexDigit (n : ℕ) : Char :=
  if n < 10 then Char.ofNat (48 + n) else Char.ofNat (55 + n % 6)

/-- `urllib.parse.quote_plus` on one character: letters, digits and
`_.-~` pass through, a space becomes `+`, anything else is
percent-encoded from its UTF-8 bytes. -/
def quote_plus_char (c : Char) : String :=
  if c.isAlphanum ∨ c = '-' ∨ c = '_' ∨ c = '.' ∨ c = '~' then String.singleton c
  else if c = ' ' then "+"
  else String.join (((String.singleton c).toUTF8.toList).map
    (fun b => "%" ++ String.singleton (hexDigit (b.toNat / 16)) ++ String.singleton (hexDigit (b.toNat % 16))))

/-- `urllib.parse.quote_plus` on a string. -/
def quote_plus (s : String) : String :=
  String.join (s.toList.map quote_plus_char)

/-- `urllib.parse.urlencode`: `k1=v1&k2=v2&...` in the dict's insertion
order, with `quote_plus` applied to keys and values. -/
def urlencode (query : List (String × String)) : String :=
  String.intercalate "&" (query.map (fun kv => quote_plus kv.1 ++ "=" ++ quote_plus kv.2))

/-- The query dictionary built by `get_phenometrics` (lines 115-123), in
its insertion order.  Latitude and longitude are taken as the strings
`urlencode` renders them to. -/
def get_phenometrics_query (cube : CubeDescriptor) (latitude longitude : String) :
    List (String × String) :=
  [("collection", cube.collection),
   ("band", cube.band),
   ("start_date", cube.start_date),
   ("end_date", cube.end_date),
   ("freq", cube.freq),
   ("latitude", latitude),
   ("longitude", longitude)]

/-- `url_suffix = '/phenometrics?' + urllib.parse.urlencode(query)`
(line 125). -/
def get_phenometrics_url_suffix (cube : CubeDescriptor) (latitude longitude : String) : String :=
  "/phenometrics?" ++ urlencode (get_phenometrics_query cube latitude longitude)

/-- `get_phenometrics(url, cube, latitude, longitude)` (lines 61-130):
issues one GET request for `/phenometrics` with the encoded query, and —
given the server's response — calls `.json()` on it (without any status
check) and returns the `result` field.  The pair is (request issued,
value returned or exception raised). -/
def get_phenometrics (url : String) (cube : CubeDescriptor) (latitude longitude : String)
    (resp : Response) : Request × Except PyError Json :=
  ({ method := "GET"
     url := url ++ get_phenometrics_url_suffix cube latitude longitude
     body := none },
   do
     let data_json ← response_json resp
     json_index data_json "result")

/-- `get_collections(url)` (lines 493-527): one GET request for
`/list_collections` with no body; `.json()` on the response (no status
check), then the `coverages` field. -/
def get_collections (url : String) (resp : Response) : Request × Except PyError Json :=
  ({ method := "GET", url := url ++ "/list_collections", body := none },
   do
     let data_json ← response_json resp
     json_index data_json "coverages")

/-- `get_timeseries_region(url, cube, geom)` (lines 572-606): one POST
request for `/timeseries` whose JSON body has the five cube fields plus
`geom`; `.json()` on the response (no status check), then `result`. -/
def get_timeseries_region (url : String) (cube : CubeDescriptor) (geom : Json)
    (resp : Response) : Request × Except PyError Json :=
  ({ method := "POST"
     url := url ++ "/timeseries"
     body := some (.obj
       [("collection", .str cube.collection),
        ("band", .str cube.band),
        ("start_date", .str cube.start_date),
        ("end_date", .str cube.end_date),
        ("freq", .str cube.freq),
        ("geom", geom)]) },
   do
     let data_json ← response_json resp
     json_index data_json "result")

/-- `get_phenometrics_region(url, cube, timeseries)` (lines 608-641): one
POST request for `/phenometrics` whose JSON body has the five cube fields
plus `timeseries`; `.json()` on the response (no status check), then
`result`. -/
def get_phenometrics_region (url : String) (cube : CubeDescriptor) (timeseries : Json)
    (resp : Response) : Request × Except PyError Json :=
  ({ method := "POST"
     url := url ++ "/phenometrics"
     body := some (.obj
       [("collection", .str cube.collection),
        ("band", .str cube.band),
        ("start_date", .str cube.start_date),
        ("end_date", .str cube.end_date),
        ("freq", .str cube.freq),
        ("timeseries", timeseries)]) },
   do
     let data_json ← response_json resp
     json_index data_json "result")

/-!
Savitzky-Golay smoothing.  `smooth_timeseries` (lines 163-166) forwards
to `scipy.signal.savgol_filter`; every call site in the repository uses
`window_length=3` and the default `polyorder=1`, and the embedding models
exactly this configuration (any other parameters are outside the
repository's use and are left undefined, i.e. `none`).

For `window_length=3, polyorder=1` and the default edge mode `interp`,
scipy computes: interior point `i` is the mean of the three surrounding
samples (the degree-1 least-squares fit over a centered window of three,
evaluated at its center, is the window mean); the first output value is
the degree-1 least-squares fit to the first three samples evaluated at
position 0, and the last output value is the fit to the last three
samples evaluated at position 2.  scipy raises a `ValueError` when the
series is shorter than `window_length` (mode `interp`), which the `none`
branch mirrors.
-/

/-- Centered moving average of width three: one output per interior
position of the input. -/
def movavg3 : List ℚ → List ℚ
  | a :: b :: c :: rest => (a + b + c) / 3 :: movavg3 (b :: c :: rest)
  | _ => []

/-- Degree-1 least-squares fit to `(0,x0), (1,x1), (2,x2)` evaluated at
position 0: the fit passes through `(1, mean)` with slope `(x2-x0)/2`. -/
def savgol_edge_start (x0 x1 x2 : ℚ) : ℚ :=
  (x0 + x1 + x2) / 3 - (x2 - x0) / 2

/-- Degree-1 least-squares fit to the last three samples
`(0,z2), (1,z1), (2,z0)` (oldest to newest) evaluated at position 2. -/
def savgol_edge_end (z2 z1 z0 : ℚ) : ℚ :=
  (z2 + z1 + z0) / 3 + (z0 - z2) / 2

/-- `scipy.signal.savgol_filter(x, window_length, polyorder)` with the
default mode `interp`, modelled at the only configuration the repository
uses (`window_length=3`, `polyorder=1`).  Fails (`none`) when the series
is shorter than the window, as scipy raises `ValueError` there. -/
def savgol_filter (ts : List ℚ) (window_length polyorder : ℕ) : Option (List ℚ) :=
  if window_length = 3 ∧ polyorder = 1 then
    match ts, ts.reverse with
    | x0 :: x1 :: x2 :: _, z0 :: z1 :: z2 :: _ =>
      some (savgol_edge_start x0 x1 x2 :: (movavg3 ts ++ [savgol_edge_end z2 z1 z0]))
    | _, _ => none
  else none

/-- `smooth_timeseries(ts, method, window_length, polyorder)` (lines
163-166): for method `'savitsky'` it returns the Savitzky-Golay filter of
the series; for any other method the Python body leaves `smooth_ts`
unbound and the function raises (`none`). -/
def smooth_timeseries (ts : List ℚ) (method : String) (window_length polyorder : ℕ) :
    Option (List ℚ) :=
  if method = "savitsky" then savgol_filter ts window_length polyorder else none

/-!
`get_description` (lines 529-554).  Besides the GET request and the
`description` field unwrap, the Python body builds an HTML table string
indexing every item of the `description` list by the six keys `Code`,
`Name`, `Description`, `Method`, `Value`, `Time`.  The string is
discarded, but building it can raise, so the embedding reproduces the
loop and its failure modes.
-/

/-- Python's `str()` on a decoded JSON value.  Only the `str` case is
load-bearing (the result feeds the discarded HTML table, whose value
`get_description` never returns); rendering of the container cases is
shallow. -/
def py_str : Json → String
  | .str s => s
  | .num q => toString q
  | .bool true => "True"
  | .bool false => "False"
  | .null => "None"
  | .arr _ => "[...]"
  | .obj _ => "dict"

/-- Python string concatenation `'...' + v`: a `TypeError` unless `v` is
a string. -/
def as_py_str (j : Json) : Except PyError String :=
  match j with
  | .str s => .ok s
  | _ => .error .typeError

/-- Python iteration `for item in v`: a list yields its items, a dict
yields its keys, a string yields its one-character substrings, anything
else raises `TypeError`. -/
def as_py_iter (j : Json) : Except PyError (List Json) :=
  match j with
  | .arr xs => .ok xs
  | .obj fields => .ok (fields.map (fun kv => .str kv.1))
  | .str s => .ok (s.toList.map (fun c => .str (String.singleton c)))
  | _ => .error .typeError

/-- One row of the HTML table (line 552), with Python's evaluation order:
each key is looked up left to right, and the four text columns are
concatenated directly (so a non-string value raises `TypeError`), while
`Value` and `Time` pass through `str()`. -/
def build_html_row (item : Json) : Except PyError String := do
  let code ← json_index item "Code"
  let codeS ← as_py_str code
  let nameV ← json_index item "Name"
  let nameS ← as_py_str nameV
  let descV ← json_index item "Description"
  let descS ← as_py_str descV
  let methV ← json_index item "Method"
  let methS ← as_py_str methV
  let valV ← json_index item "Value"
  let timeV ← json_index item "Time"
  pure ("<tr>" ++ "<td>" ++ codeS ++ "</td>" ++ "<td>" ++ nameS ++ "</td>" ++
    "<td>" ++ descS ++ "</td>" ++ "<td>" ++ methS ++ "</td>" ++
    "<td>" ++ py_str valV ++ "</td>" ++ "<td>" ++ py_str timeV ++ "</td>" ++ "</tr>")

/-- The table header literal of line 549. -/
def html_header : String :=
  "<tr>" ++ "<td><b>Code</b></td>" ++ "<td><b>Name</b></td>" ++ "<td><b>Description</b></td>" ++
  "<td><b>Method</b></td>" ++ "<td><b>Value</b></td>" ++ "<td><b>Time</b></td>" ++ "</tr>"

/-- The `for item in data_json['description']` loop (lines 551-552),
accumulating rows left to right and stopping at the first raise. -/
def build_html_table_from (acc : String) : List Json → Except PyError String
  | [] => .ok acc
  | item :: rest =>
    match build_html_row item with
    | .ok row => build_html_table_from (acc ++ row) rest
    | .error e => .error e

/-- The whole HTML table of `get_description`. -/
def build_html_table (items : List Json) : Except PyError String :=
  build_html_table_from html_header items

/-- `get_description(url)` (lines 529-554): one GET request for
`/describe` with no body; `.json()` on the response (no status check);
builds the HTML table over the `description` list (discarding it), then
returns the `description` field. -/
def get_description (url : String) (resp : Response) : Request × Except PyError Json :=
  ({ method := "GET", url := url ++ "/describe", body := none },
   do
     let data_json ← response_json resp
     let desc ← json_index data_json "description"
     let items ← as_py_iter desc
     let _table ← build_html_table items
     json_index data_json "description")

/-!
Dates.  The chart builders use `s.split('T')[0]` to drop the time part of
a timestamp and `datetime.strptime(_, "%Y-%m-%d")` to parse the date.
Python datetimes are proleptic Gregorian; the embedding represents a
parsed datetime by its civil day number, so `timedelta(days=k)` becomes
`+ k`.
-/

/-- Splitting a character list at every occurrence of a separator, as
Python's `str.split(sep)` does (empty pieces kept). -/
def splitOnChar (sep : Char) : List Char → List (List Char)
  | [] => [[]]
  | c :: rest =>
    if c = sep then [] :: splitOnChar sep rest
    else
      match splitOnChar sep rest with
      | [] => [[c]]
      | h :: t => (c :: h) :: t

/-- The numeric value of a digit string, `none` when empty or when any
character is not a decimal digit — the fields `strptime` accepts. -/
def digitsToNat (cs : List Char) : Option ℕ :=
  if cs = [] then none
  else cs.foldl (fun acc c =>
    match acc with
    | none => none
    | some n => if c.isDigit then some (n * 10 + (c.toNat - 48)) else none) (some 0)

/-- `s.split('T')[0]`: the text before the first `T`. -/
def dateOnly (s : String) : String :=
  String.mk (s.data.takeWhile (fun c => c ≠ 'T'))

/-- Leap years of the proleptic Gregorian calendar. -/
def isLeapYear (y : ℕ) : Bool :=
  (y % 4 = 0 ∧ y % 100 ≠ 0) ∨ y % 400 = 0

/-- Days in a month. -/
def daysInMonth (y m : ℕ) : ℕ :=
  if m = 2 then (if isLeapYear y then 29 else 28)
  else if m = 4 ∨ m = 6 ∨ m = 9 ∨ m = 11 then 30
  else 31

/-- Civil day number of a Gregorian date with `1 ≤ y`: days since
1970-01-01 (negative before). -/
def daysFromCivil (y m d : ℕ) : ℤ :=
  let yShift : ℕ := if m ≤ 2 then y - 1 else y
  let era : ℕ := yShift / 400
  let yoe : ℕ := yShift % 400
  let mp : ℕ := (m + 9) % 12
  let doy : ℕ := (153 * mp + 2) / 5 + d - 1
  let doe : ℕ := yoe * 365 + yoe / 4 - yoe / 100 + doy
  ((era : ℤ) * 146097 + (doe : ℤ)) - 719468

/-- `datetime.strptime(s, "%Y-%m-%d")`, as the civil day number of the
parsed date; `none` when Python would raise a `ValueError` (wrong shape,
non-numeric fields, or an out-of-range month, day or year). -/
def strptime_Ymd (s : String) : Option ℤ :=
  match splitOnChar (Char.ofNat 45) s.data with
  | [ys, ms, ds] => do
    let y ← digitsToNat ys
    let m ← digitsToNat ms
    let d ← digitsToNat ds
    if 1 ≤ y ∧ y ≤ 9999 ∧ 1 ≤ m ∧ m ≤ 12 ∧ 1 ≤ d ∧ d ≤ daysInMonth y m then
      some (daysFromCivil y m d)
    else none
  | _ => none

/-!
Chart builders.  Each plot function is embedded as the ordered list of
chart elements it adds to its figure.  An x-axis position is represented
by its date-only string (for the matplotlib/seaborn variants the source
parses these strings into datetimes before plotting; since parsing a
`YYYY-MM-DD` string is injective, the string is kept as the
representative, and each `strptime` call of the source appears as a
guard that the string parses).  The `vrect` uncertainty bands of the
region variant carry their numeric day-number bounds, since the source
computes them with `timedelta` arithmetic.
-/

/-- The phenometrics fields the chart builders read. -/
structure PhenoRecord where
  sos_t : String
  sos_v : ℚ
  pos_t : String
  pos_v : ℚ
  eos_t : String
  eos_v : ℚ
  vos_t : String
  vos_v : ℚ
deriving DecidableEq

/-- The `ds_phenos` argument of the point-query chart builders:
`ds_phenos['timeseries']['timeline']`, `ds_phenos['timeseries']['values']`
and `ds_phenos['phenometrics']`. -/
structure DsPhenos where
  timeline : List String
  values : List ℚ
  phenometrics : PhenoRecord
deriving DecidableEq

/-- The `ds_phenos` argument of `plot_advanced_phenometrics`, whose
`timeline` and `timeseries` sit at top level. -/
structure DsPhenosRegion where
  timeline : List String
  timeseries : List ℚ
  phenometrics : PhenoRecord
deriving DecidableEq

/-- One element added to a figure: a trace (name, mode, x positions,
y values) or a vertical band between two day numbers. -/
inductive ChartElem where
  | trace (name : String) (mode : String) (x : List String) (y : List ℚ) : ChartElem
  | vrect (x0 x1 : ℤ) : ChartElem
deriving DecidableEq

/-- The vertical bands among a figure's elements. -/
def vrectsOf (elems : List ChartElem) : List ChartElem :=
  elems.filter (fun e => match e with | .vrect _ _ => true | _ => false)

/-- `plot_phenometrics(cube, ds_phenos)` (lines 168-259): smooths the
series, parses `pos_t` (lines 176-177 parse the same field twice, so one
guard captures both), and adds nine traces — LIOS fill, raw series,
smoothed series, LOS, AOS, and the SOS/POS/EOS/VOS markers.  `none` when
the smoothing or the parse raises. -/
def plot_phenometrics (band : String) (ds : DsPhenos) : Option (List ChartElem) :=
  match smooth_timeseries ds.values "savitsky" 3 1,
    strptime_Ymd (dateOnly ds.phenometrics.pos_t) with
  | some y_new, some _pos_day =>
    some [
      .trace "LIOS" "lines"
        [dateOnly ds.phenometrics.sos_t, dateOnly ds.phenometrics.sos_t,
         dateOnly ds.phenometrics.pos_t, dateOnly ds.phenometrics.eos_t,
         dateOnly ds.phenometrics.eos_t]
        [0, ds.phenometrics.sos_v, ds.phenometrics.pos_v, ds.phenometrics.eos_v, 0],
      .trace band "lines" ds.timeline ds.values,
      .trace ("Smooth " ++ band) "lines" ds.timeline y_new,
      .trace "LOS" "lines"
        [dateOnly ds.phenometrics.sos_t, dateOnly ds.phenometrics.eos_t]
        [ds.phenometrics.sos_v, ds.phenometrics.eos_v],
      .trace "AOS" "lines"
        [dateOnly ds.phenometrics.pos_t, dateOnly ds.phenometrics.pos_t]
        [ds.phenometrics.pos_v, 0],
      .trace "SOS" "markers" [dateOnly ds.phenometrics.sos_t] [ds.phenometrics.sos_v],
      .trace "POS" "markers" [dateOnly ds.phenometrics.pos_t] [ds.phenometrics.pos_v],
      .trace "EOS" "markers" [dateOnly ds.phenometrics.eos_t] [ds.phenometrics.eos_v],
      .trace "VOS" "markers" [dateOnly ds.phenometrics.vos_t] [ds.phenometrics.vos_v]]
  | _, _ => none

/-- `plot_phenometrics_matplotlib(cube, ds_phenos, ...)` (lines 261-324):
smooths the series, parses every timeline entry and the four
phenometric timestamps, requires timeline and values of equal length
(`ax.plot` raises otherwise), and draws the LIOS fill, the raw and
smoothed series, LOS, AOS and the four markers. -/
def plot_phenometrics_matplotlib (band : String) (ds : DsPhenos) : Option (List ChartElem) :=
  if ds.timeline.length = ds.values.length then
    match smooth_timeseries ds.values "savitsky" 3 1,
      ds.timeline.mapM (fun t => strptime_Ymd (dateOnly t)),
      strptime_Ymd (dateOnly ds.phenometrics.sos_t),
      strptime_Ymd (dateOnly ds.phenometrics.pos_t),
      strptime_Ymd (dateOnly ds.phenometrics.eos_t),
      strptime_Ymd (dateOnly ds.phenometrics.vos_t) with
    | some y_new, some _tl, some _, some _, some _, some _ =>
      some [
        .trace "LIOS" "fill"
          [dateOnly ds.phenometrics.sos_t, dateOnly ds.phenometrics.sos_t,
           dateOnly ds.phenometrics.pos_t, dateOnly ds.phenometrics.eos_t,
           dateOnly ds.phenometrics.eos_t]
          [0, ds.phenometrics.sos_v, ds.phenometrics.pos_v, ds.phenometrics.eos_v, 0],
        .trace band "lines" (ds.timeline.map dateOnly) ds.values,
        .trace ("Smooth " ++ band) "lines" (ds.timeline.map dateOnly) y_new,
        .trace "LOS" "lines"
          [dateOnly ds.phenometrics.sos_t, dateOnly ds.phenometrics.eos_t]
          [ds.phenometrics.sos_v, ds.phenometrics.eos_v],
        .trace "AOS" "lines"
          [dateOnly ds.phenometrics.pos_t, dateOnly ds.phenometrics.pos_t]
          [ds.phenometrics.pos_v, 0],
        .trace "SOS" "markers" [dateOnly ds.phenometrics.sos_t] [ds.phenometrics.sos_v],
        .trace "POS" "markers" [dateOnly ds.phenometrics.pos_t] [ds.phenometrics.pos_v],
        .trace "EOS" "markers" [dateOnly ds.phenometrics.eos_t] [ds.phenometrics.eos_v],
        .trace "VOS" "markers" [dateOnly ds.phenometrics.vos_t] [ds.phenometrics.vos_v]]
    | _, _, _, _, _, _ => none
  else none

/-- `plot_phenometrics_seaborn(cube, ds_phenos, ...)` (lines 326-397):
same guards as the matplotlib variant (the `pandas.DataFrame` also
requires the equal lengths), with the AOS segment drawn bottom-up
(line 370). -/
def plot_phenometrics_seaborn (band : String) (ds : DsPhenos) : Option (List ChartElem) :=
  if ds.timeline.length = ds.values.length then
    match smooth_timeseries ds.values "savitsky" 3 1,
      ds.timeline.mapM (fun t => strptime_Ymd (dateOnly t)),
      strptime_Ymd (dateOnly ds.phenometrics.sos_t),
      strptime_Ymd (dateOnly ds.phenometrics.pos_t),
      strptime_Ymd (dateOnly ds.phenometrics.eos_t),
      strptime_Ymd (dateOnly ds.phenometrics.vos_t) with
    | some y_new, some _tl, some _, some _, some _, some _ =>
      some [
        .trace "LIOS" "fill"
          [dateOnly ds.phenometrics.sos_t, dateOnly ds.phenometrics.sos_t,
           dateOnly ds.phenometrics.pos_t, dateOnly ds.phenometrics.eos_t,
           dateOnly ds.phenometrics.eos_t]
          [0, ds.phenometrics.sos_v, ds.phenometrics.pos_v, ds.phenometrics.eos_v, 0],
        .trace band "lines" (ds.timeline.map dateOnly) ds.values,
        .trace ("Smooth " ++ band) "lines" (ds.timeline.map dateOnly) y_new,
        .trace "LOS" "lines"
          [dateOnly ds.phenometrics.sos_t, dateOnly ds.phenometrics.eos_t]
          [ds.phenometrics.sos_v, ds.phenometrics.eos_v],
        .trace "AOS" "lines"
          [dateOnly ds.phenometrics.pos_t, dateOnly ds.phenometrics.pos_t]
          [0, ds.phenometrics.pos_v],
        .trace "SOS" "markers" [dateOnly ds.phenometrics.sos_t] [ds.phenometrics.sos_v],
        .trace "POS" "markers" [dateOnly ds.phenometrics.pos_t] [ds.phenometrics.pos_v],
        .trace "EOS" "markers" [dateOnly ds.phenometrics.eos_t] [ds.phenometrics.eos_v],
        .trace "VOS" "markers" [dateOnly ds.phenometrics.vos_t] [ds.phenometrics.vos_v]]
    | _, _, _, _, _, _ => none
  else none

/-- `plot_advanced_phenometrics(cube, ds_phenos)` (lines 399-491): smooths
the *whole* series (line 401) but plots only the first 21 samples
(lines 403-404); adds the LIOS fill, raw and smoothed series, AOS and
the SOS/POS/VOS/EOS markers (in that order), then the two `add_vrect`
uncertainty bands of lines 485-489, spanning 16 days either side of the
parsed SOS and EOS dates. -/
def plot_advanced_phenometrics (band : String) (ds : DsPhenosRegion) :
    Option (List ChartElem) :=
  match smooth_timeseries ds.timeseries "savitsky" 3 1,
    strptime_Ymd (dateOnly ds.phenometrics.pos_t),
    strptime_Ymd (dateOnly ds.phenometrics.sos_t),
    strptime_Ymd (dateOnly ds.phenometrics.eos_t) with
  | some y_new, some _pos_day, some sos_time, some eos_time =>
    some [
      .trace "LIOS" "lines"
        [dateOnly ds.phenometrics.sos_t, dateOnly ds.phenometrics.sos_t,
         dateOnly ds.phenometrics.pos_t, dateOnly ds.phenometrics.eos_t,
         dateOnly ds.phenometrics.eos_t]
        [0, ds.phenometrics.sos_v, ds.phenometrics.pos_v, ds.phenometrics.eos_v, 0],
      .trace band "lines" (ds.timeline.take 21) (ds.timeseries.take 21),
      .trace ("Smooth " ++ band) "lines" (ds.timeline.take 21) y_new,
      .trace "AOS" "lines"
        [dateOnly ds.phenometrics.pos_t, dateOnly ds.phenometrics.pos_t]
        [ds.phenometrics.pos_v, 0],
      .trace "SOS" "markers" [dateOnly ds.phenometrics.sos_t] [ds.phenometrics.sos_v],
      .trace "POS" "markers" [dateOnly ds.phenometrics.pos_t] [ds.phenometrics.pos_v],
      .trace "VOS" "markers" [dateOnly ds.phenometrics.vos_t] [ds.phenometrics.vos_v],
      .trace "EOS" "markers" [dateOnly ds.phenometrics.eos_t] [ds.phenometrics.eos_v],
      .vrect (sos_time - 16) (sos_time + 16),
      .vrect (eos_time - 16) (eos_time + 16)]
  | _, _, _, _ => none

/-!
`plot_points_region` is defined twice in the module (lines 563-570 and
lines 643-652) with the same name and signature.  Python executes `def`
statements in order, so after the module loads, the name is bound to the
second body and the first is unreachable.  The two bodies are embedded
separately; the module-level binding follows the second.
-/

/-- One entry of the `phenos` list consumed by `plot_points_region`:
its `point` field holds the x and y coordinates. -/
structure RegionPheno where
  point : ℚ × ℚ
deriving DecidableEq

/-- The figure a region-point plot produces: either a `plotly.express`
scatter chart, or a GeoSeries base plot with a colored scatter overlay. -/
inductive RegionPlot where
  | px_scatter (x y : List ℚ) : RegionPlot
  | geoseries_scatter (x y : List ℚ) (color : String) : RegionPlot
deriving DecidableEq

/-- The first `plot_points_region` (lines 563-570): after extracting the
coordinates it evaluates `px.scatter(df, x=x, y=y)`, but the module
imports `plotly.graph_objects as go` and never `plotly.express as px`
(lines 21-35), so the call raises `NameError: name 'px' is not
defined`. -/
def plot_points_region_v1 (phenos : List RegionPheno) : Except PyError RegionPlot :=
  let _x := phenos.map (fun p => p.point.1)
  let _y := phenos.map (fun p => p.point.2)
  .error (.nameError "px")

/-- The second `plot_points_region` (lines 643-652): extracts the
coordinates, plots the polygon's GeoSeries and overlays a red scatter of
the points. -/
def plot_points_region_v2 (phenos : List RegionPheno) : Except PyError RegionPlot :=
  .ok (.geoseries_scatter (phenos.map (fun p => p.point.1))
    (phenos.map (fun p => p.point.2)) "red")

/-- The module-level binding of `plot_points_region`: Python's second
`def` statement rebinds the name, so every call after module load
executes the second body. -/
def plot_points_region : List RegionPheno → Except PyError RegionPlot :=
  plot_points_region_v2

/-- Whether an exception is the `requests.HTTPError`. -/
def is_http : PyError → Bool
  | .httpError _ => true
  | _ => false

/-- Whether an operation outcome is a surfaced `HTTPError`. -/
def is_http_error : Except PyError Json → Bool
  | .error e => is_http e
  | .ok _ => false

/-- Decidable comparison of two region-plot outcomes. -/
def region_outcome_eq : Except PyError RegionPlot → Except PyError RegionPlot → Bool
  | .ok a, .ok b => decide (a = b)
  | .error a, .error b => decide (a = b)
  | _, _ => false

/-!
Arithmetic (linear) series, for the smoothing claims.
-/

/-- The list `[b, b + a, b + 2a, ...]` of length `n`. -/
def linSeq (b a : ℚ) : ℕ → List ℚ
  | 0 => []
  | n + 1 => b :: linSeq (b + a) a n

/-- The x positions of the LIOS fill trace (lines 187 / 282). -/
def lios_x (ph : PhenoRecord) : List String :=
  [dateOnly ph.sos_t, dateOnly ph.sos_t, dateOnly ph.pos_t, dateOnly ph.eos_t, dateOnly ph.eos_t]

/-- The y values of the LIOS fill trace (lines 188 / 283). -/
def lios_y (ph : PhenoRecord) : List ℚ :=
  [0, ph.sos_v, ph.pos_v, ph.eos_v, 0]

/-- The closed five-vertex path the specification claims for the LIOS
fill polygon: (sos_t, 0), (sos_t, sos_v), (pos_t, pos_v), (eos_t, eos_v),
(eos_t, 0). -/
def lios_claimed_path (ph : PhenoRecord) : List (String × ℚ) :=
  [(dateOnly ph.sos_t, 0), (dateOnly ph.sos_t, ph.sos_v), (dateOnly ph.pos_t, ph.pos_v),
   (dateOnly ph.eos_t, ph.eos_v), (dateOnly ph.eos_t, 0)]

/-- A point-query input for the C6 witness: a three-sample linear series
and the spec's example phenometrics. -/
def C6_exDs : DsPhenos :=
  { timeline := ["2021-01-01T00:00:00", "2021-01-17T00:00:00", "2021-02-02T00:00:00"]
    values := [0, 3, 6]
    phenometrics :=
      { sos_t := "2021-01-02T00:00:00", sos_v := 7649
        pos_t := "2021-04-01T00:00:00", pos_v := 9000
        eos_t := "2021-07-13T00:00:00", eos_v := 5489
        vos_t := "2021-12-20T00:00:00", vos_v := 4817.33 } }

/-- A region-query input for the C7 witness. -/
def C7_exDs : DsPhenosRegion :=
  { timeline := ["2021-01-01T00:00:00", "2021-01-17T00:00:00", "2021-02-02T00:00:00"]
    timeseries := [0, 3, 6]
    phenometrics :=
      { sos_t := "2021-01-02T00:00:00", sos_v := 7649
        pos_t := "2021-04-01T00:00:00", pos_v := 9000
        eos_t := "2021-07-13T00:00:00", eos_v := 5489
        vos_t := "2021-12-20T00:00:00", vos_v := 4817.33 } }

/-- `movavg3` shortens a list by two (truncated at zero). -/
theorem movavg3_length (l : List ℚ) : (movavg3 l).length = l.length - 2 := by
  induction l with
  | nil => rfl
  | cons a t ih =>
    match t with
    | [] => rfl
    | [b] => rfl
    | b :: c :: rest =>
      simp only [movavg3, List.length_cons] at ih ⊢
      omega

/-- Peeling one `Except` bind that failed. -/
theorem except_bind_eq_error {ε α β : Type} {x : Except ε α} {f : α → Except ε β} {e : ε}
    (h : (x >>= f) = .error e) : x = .error e ∨ ∃ a, x = .ok a ∧ f a = .error e := by
  cases x with
  | error e2 =>
    left
    have : (Except.error e2 : Except ε β) = .error e := h
    injection this with h2
    rw [h2]
  | ok a => right; exact ⟨a, rfl, h⟩

/-- `.json()` only raises the decode error. -/
theorem response_json_error {resp : Response} {e : PyError}
    (h : response_json resp = .error e) : is_http e = false := by
  cases hb : resp.body with
  | none => simp [response_json, hb] at h; subst h; rfl
  | some j => simp [response_json, hb] at h

/-- Dict indexing only raises `KeyError` or `TypeError`. -/
theorem json_index_error {j : Json} {key : String} {e : PyError}
    (h : json_index j key = .error e) : is_http e = false := by
  cases j with
  | obj fields =>
    cases hd : pydict_get fields key with
    | none => simp [json_index, hd] at h; subst h; rfl
    | some v => simp [json_index, hd] at h
  | null => simp [json_index] at h; subst h; rfl
  | bool b => simp [json_index] at h; subst h; rfl
  | num q => simp [json_index] at h; subst h; rfl
  | str s2 => simp [json_index] at h; subst h; rfl
  | arr xs => simp [json_index] at h; subst h; rfl

/-- String concatenation only raises `TypeError`. -/
theorem as_py_str_error {j : Json} {e : PyError}
    (h : as_py_str j = .error e) : is_http e = false := by
  cases j <;> simp [as_py_str] at h <;> subst h <;> rfl

/-- Iteration only raises `TypeError`. -/
theorem as_py_iter_error {j : Json} {e : PyError}
    (h : as_py_iter j = .error e) : is_http e = false := by
  cases j <;> simp [as_py_iter] at h <;> subst h <;> rfl

/-- Building one table row only raises `KeyError` or `TypeError`. -/
theorem build_html_row_error {item : Json} {e : PyError}
    (h : build_html_row item = .error e) : is_http e = false := by
  simp only [build_html_row] at h
  rcases except_bind_eq_error h with h | ⟨code, _, h⟩
  · exact json_index_error h
  rcases except_bind_eq_error h with h | ⟨codeS, _, h⟩
  · exact as_py_str_error h
  rcases except_bind_eq_error h with h | ⟨nameV, _, h⟩
  · exact json_index_error h
  rcases except_bind_eq_error h with h | ⟨nameS, _, h⟩
  · exact as_py_str_error h
  rcases except_bind_eq_error h with h | ⟨descV, _, h⟩
  · exact json_index_error h
  rcases except_bind_eq_error h with h | ⟨descS, _, h⟩
  · exact as_py_str_error h
  rcases except_bind_eq_error h with h | ⟨methV, _, h⟩
  · exact json_index_error h
  rcases except_bind_eq_error h with h | ⟨methS, _, h⟩
  · exact as_py_str_error h
  rcases except_bind_eq_error h with h | ⟨valV, _, h⟩
  · exact json_index_error h
  rcases except_bind_eq_error h with h | ⟨timeV, _, h⟩
  · exact json_index_error h
  exact absurd h (by simp [pure, Except.pure])

/-- Building the table only raises `KeyError` or `TypeError`. -/
theorem build_html_table_from_error {items : List Json} :
    ∀ {acc : String} {e : PyError},
      build_html_table_from acc items = .error e → is_http e = false := by
  induction items with
  | nil => intro acc e h; exact absurd h (by simp [build_html_table_from])
  | cons x rest ih =>
    intro acc e h
    rw [build_html_table_from] at h
    cases hrow : build_html_row x with
    | error e2 =>
      rw [hrow] at h
      injection h with h2
      rw [← h2]
      exact build_html_row_error hrow
    | ok row =>
      rw [hrow] at h
      exact ih h

/-- The shared unwrap of the four `result`/`coverages` routes never
surfaces an `HTTPError`. -/
theorem is_http_error_unwrap (resp : Response) (key : String) :
    is_http_error (do
      let data_json ← response_json resp
      json_index data_json key) = false := by
  cases hres : (do
      let data_json ← response_json resp
      json_index data_json key : Except PyError Json) with
  | ok v => rfl
  | error e =>
    show is_http e = false
    rcases except_bind_eq_error hres with h | ⟨j, _, h⟩
    · exact response_json_error h
    · exact json_index_error h

/-- `get_description` never surfaces an `HTTPError` either. -/
theorem is_http_error_get_description (url : String) (resp : Response) :
    is_http_error ((get_description url resp).2) = false := by
  cases hres : (get_description url resp).2 with
  | ok v => rfl
  | error e =>
    show is_http e = false
    simp only [get_description] at hres
    rcases except_bind_eq_error hres with h | ⟨j, _, h⟩
    · exact response_json_error h
    rcases except_bind_eq_error h with h | ⟨desc, _, h⟩
    · exact json_index_error h
    rcases except_bind_eq_error h with h | ⟨items, _, h⟩
    · exact as_py_iter_error h
    rcases except_bind_eq_error h with h | ⟨tbl, _, h⟩
    · exact build_html_table_from_error h
    · exact json_index_error h

/-- C1: the claim says a non-2xx HTTP status surfaces an `HTTPError` and
never a `DecodeError` first.  The code contradicts it (and its own
docstrings): no operation calls `raise_for_status`, so every route's
outcome is independent of the status code and is *never* an `HTTPError`,
and on a 404 with a non-JSON body `get_phenometrics` raises the decode
error. -/
theorem C1_non2xx_decode_not_http :
    (∀ url cube lat lon body s t,
      (get_phenometrics url cube lat lon ⟨s, body⟩).2 =
        (get_phenometrics url cube lat lon ⟨t, body⟩).2) ∧
    (∀ url body s t,
      (get_collections url ⟨s, body⟩).2 = (get_collections url ⟨t, body⟩).2) ∧
    (∀ url body s t,
      (get_description url ⟨s, body⟩).2 = (get_description url ⟨t, body⟩).2) ∧
    (∀ url cube geom body s t,
      (get_timeseries_region url cube geom ⟨s, body⟩).2 =
        (get_timeseries_region url cube geom ⟨t, body⟩).2) ∧
    (∀ url cube tss body s t,
      (get_phenometrics_region url cube tss ⟨s, body⟩).2 =
        (get_phenometrics_region url cube tss ⟨t, body⟩).2) ∧
    (∀ url cube lat lon resp, is_http_error ((get_phenometrics url cube lat lon resp).2) = false) ∧
    (∀ url resp, is_http_error ((get_collections url resp).2) = false) ∧
    (∀ url resp, is_http_error ((get_description url resp).2) = false) ∧
    (∀ url cube geom resp, is_http_error ((get_timeseries_region url cube geom resp).2) = false) ∧
    (∀ url cube tss resp, is_http_error ((get_phenometrics_region url cube tss resp).2) = false) ∧
    ((get_phenometrics "http://host" (cube_query "S2-16D-2" "2021-01-01" "2021-12-31" "16D" "NDVI")
        "-29.2" "-55.95" ⟨404, none⟩).2 = .error .decodeError) :=
  ⟨fun _ _ _ _ _ _ _ => rfl, fun _ _ _ _ => rfl, fun _ _ _ _ => rfl,
   fun _ _ _ _ _ _ => rfl, fun _ _ _ _ _ _ => rfl,
   fun _ _ _ _ resp => is_http_error_unwrap resp "result",
   fun _ resp => is_http_error_unwrap resp "coverages",
   fun url resp => is_http_error_get_description url resp,
   fun _ _ _ resp => is_http_error_unwrap resp "result",
   fun _ _ _ resp => is_http_error_unwrap resp "result",
   rfl⟩

/-- C2, counterexample: the claim counts "six" parameters, but the query
dictionary `get_phenometrics` builds has seven entries. -/
theorem C2_counterexample :
    ((get_phenometrics_query (cube_query "S2-16D-2" "2021-01-01" "2021-12-31" "16D" "NDVI")
        "-29.2" "-55.95").map Prod.fst).length ≠ 6 := by
  decide

/-- C2, amended: for every cube descriptor and every latitude/longitude,
the query dictionary behind the `/phenometrics` GET contains exactly the
seven parameters collection, band, start_date, end_date, freq, latitude,
longitude (in this order) and no others, and the query string is its
URL-encoding appended to `/phenometrics?`. -/
theorem C2_exactly_seven_params :
    ∀ (cube : CubeDescriptor) (lat lon : String),
      (get_phenometrics_query cube lat lon).map Prod.fst =
        ["collection", "band", "start_date", "end_date", "freq", "latitude", "longitude"] ∧
      ((get_phenometrics_query cube lat lon).map Prod.fst).length = 7 ∧
      get_phenometrics_url_suffix cube lat lon =
        "/phenometrics?" ++ urlencode (get_phenometrics_query cube lat lon) := by
  intro cube lat lon
  exact ⟨rfl, rfl, rfl⟩

/-- C3: whenever the response body is a JSON object with a `result`
field, `get_phenometrics` returns exactly that field's value. -/
theorem C3_returns_result_field (url : String) (cube : CubeDescriptor) (lat lon : String)
    (resp : Response) (fields : List (String × Json)) (v : Json)
    (hbody : resp.body = some (.obj fields))
    (hres : pydict_get fields "result" = some v) :
    (get_phenometrics url cube lat lon resp).2 = .ok v := by
  simp [get_phenometrics, response_json, hbody, json_index, hres, Bind.bind, Except.bind]

/-- C3, witness: the spec's end-to-end example — the server returns a
`result` record whose `sos_v` is 7649.0, and the call yields exactly that
record, whose `sos_v` field is 7649.0. -/
theorem C3_witness :
    (get_phenometrics "http://host" (cube_query "S2-16D-2" "2021-01-01" "2021-12-31" "16D" "NDVI")
      "-29.2" "-55.95"
      ⟨200, some (.obj [("result", .obj
        [("aos_v", .num 2975.67),
         ("sos_t", .str "2021-01-02T00:00:00"),
         ("sos_v", .num 7649.0),
         ("eos_t", .str "2021-07-13T00:00:00"),
         ("eos_v", .num 5489.0)])])⟩).2 =
      .ok (.obj
        [("aos_v", .num 2975.67),
         ("sos_t", .str "2021-01-02T00:00:00"),
         ("sos_v", .num 7649.0),
         ("eos_t", .str "2021-07-13T00:00:00"),
         ("eos_v", .num 5489.0)]) ∧
    pydict_get
        [("aos_v", .num 2975.67),
         ("sos_t", .str "2021-01-02T00:00:00"),
         ("sos_v", .num 7649.0),
         ("eos_t", .str "2021-07-13T00:00:00"),
         ("eos_v", .num 5489.0)] "sos_v" = some (.num 7649.0) :=
  ⟨C3_returns_result_field "http://host"
    (cube_query "S2-16D-2" "2021-01-01" "2021-12-31" "16D" "NDVI") "-29.2" "-55.95"
    _ _ _ rfl rfl, rfl⟩

/-- C9: the module defines `plot_points_region` twice; the binding after
module load is the second body, the first is unreachable, and the two
bodies are not equivalent: on the same input the first raises the
`NameError` on the unimported `px` while the second renders a GeoSeries
plot with a red scatter, so their outcomes differ. -/
theorem C9_second_definition_shadows :
    plot_points_region = plot_points_region_v2 ∧
    plot_points_region_v1 [{ point := (1, 2) }] = .error (.nameError "px") ∧
    plot_points_region_v2 [{ point := (1, 2) }] = .ok (.geoseries_scatter [1] [2] "red") ∧
    region_outcome_eq (plot_points_region_v1 [{ point := (1, 2) }])
      (plot_points_region_v2 [{ point := (1, 2) }]) = false :=
  ⟨rfl, rfl, rfl, rfl⟩

/-- Peeling one `Except` bind that succeeded. -/
theorem except_bind_eq_ok {ε α β : Type} {x : Except ε α} {f : α → Except ε β} {b : β}
    (h : (x >>= f) = .ok b) : ∃ a, x = .ok a ∧ f a = .ok b := by
  cases x with
  | error e => exact absurd h (by simp [Bind.bind, Except.bind])
  | ok a => exact ⟨a, rfl, h⟩

/-- A successful `.json()` means the body was valid JSON. -/
theorem response_json_ok {resp : Response} {j : Json} (h : response_json resp = .ok j) :
    resp.body = some j := by
  cases hb : resp.body with
  | none => simp [response_json, hb] at h
  | some j2 => simp [response_json, hb] at h; exact congrArg some h

/-- A successful string indexing means the value was a dict holding the
key. -/
theorem json_index_ok {j : Json} {key : String} {v : Json}
    (h : json_index j key = .ok v) :
    ∃ fields, j = .obj fields ∧ pydict_get fields key = some v := by
  cases j with
  | obj fields =>
    refine ⟨fields, rfl, ?_⟩
    cases hd : pydict_get fields key with
    | none => simp [json_index, hd] at h
    | some w => simp [json_index, hd] at h; rw [h]
  | null => simp [json_index] at h
  | bool b => simp [json_index] at h
  | num q => simp [json_index] at h
  | str s => simp [json_index] at h
  | arr xs => simp [json_index] at h

/-- A successful table build means every row built successfully. -/
theorem build_html_table_from_ok {items : List Json} :
    ∀ {acc s : String}, build_html_table_from acc items = .ok s →
      ∀ item ∈ items, ∃ r, build_html_row item = .ok r := by
  induction items with
  | nil => intro acc s _ item hmem; cases hmem
  | cons x rest ih =>
    intro acc s h item hmem
    rw [build_html_table_from] at h
    cases hrow : build_html_row x with
    | error e => rw [hrow] at h; cases h
    | ok row =>
      rw [hrow] at h
      rcases List.mem_cons.mp hmem with hmem | hmem
      · exact ⟨row, hmem ▸ hrow⟩
      · exact ih h item hmem

/-- A successful row build means the item was a dict carrying all six
column keys. -/
theorem build_html_row_ok {item : Json} {r : String} (h : build_html_row item = .ok r) :
    ∃ f2, item = .obj f2 ∧
      ∀ k ∈ (["Code", "Name", "Description", "Method", "Value", "Time"] : List String),
        ∃ v, pydict_get f2 k = some v := by
  simp only [build_html_row] at h
  obtain ⟨code, hcode, h⟩ := except_bind_eq_ok h
  obtain ⟨codeS, _, h⟩ := except_bind_eq_ok h
  obtain ⟨nameV, hname, h⟩ := except_bind_eq_ok h
  obtain ⟨nameS, _, h⟩ := except_bind_eq_ok h
  obtain ⟨descV, hdesc, h⟩ := except_bind_eq_ok h
  obtain ⟨descS, _, h⟩ := except_bind_eq_ok h
  obtain ⟨methV, hmeth, h⟩ := except_bind_eq_ok h
  obtain ⟨methS, _, h⟩ := except_bind_eq_ok h
  obtain ⟨valV, hval, h⟩ := except_bind_eq_ok h
  obtain ⟨timeV, htime, _⟩ := except_bind_eq_ok h
  obtain ⟨fields, hfields, hCode⟩ := json_index_ok hcode
  subst hfields
  refine ⟨fields, rfl, ?_⟩
  intro k hk
  obtain ⟨f2, hf2, hName⟩ := json_index_ok hname
  injection hf2 with hf2e; subst hf2e
  obtain ⟨f2, hf2, hDesc⟩ := json_index_ok hdesc
  injection hf2 with hf2e; subst hf2e
  obtain ⟨f2, hf2, hMeth⟩ := json_index_ok hmeth
  injection hf2 with hf2e; subst hf2e
  obtain ⟨f2, hf2, hVal⟩ := json_index_ok hval
  injection hf2 with hf2e; subst hf2e
  obtain ⟨f2, hf2, hTime⟩ := json_index_ok htime
  injection hf2 with hf2e; subst hf2e
  simp only [List.mem_cons, List.not_mem_nil, or_false] at hk
  rcases hk with rfl | rfl | rfl | rfl | rfl | rfl
  · exact ⟨code, hCode⟩
  · exact ⟨nameV, hName⟩
  · exact ⟨descV, hDesc⟩
  · exact ⟨methV, hMeth⟩
  · exact ⟨valV, hVal⟩
  · exact ⟨timeV, hTime⟩

/-- The full success chain of `get_description`: the body was a dict, the
returned value is its `description` field, it was iterable, and the HTML
table built successfully. -/
theorem get_description_ok_chain {url : String} {resp : Response} {v : Json}
    (h : (get_description url resp).2 = .ok v) :
    ∃ fields items, resp.body = some (.obj fields) ∧
      pydict_get fields "description" = some v ∧
      as_py_iter v = .ok items ∧
      ∃ s, build_html_table items = .ok s := by
  simp only [get_description] at h
  obtain ⟨j, hj, h⟩ := except_bind_eq_ok h
  obtain ⟨desc, hdesc, h⟩ := except_bind_eq_ok h
  obtain ⟨items, hitems, h⟩ := except_bind_eq_ok h
  obtain ⟨tbl, htbl, h⟩ := except_bind_eq_ok h
  obtain ⟨fields, hfields, hget⟩ := json_index_ok h
  subst hfields
  obtain ⟨fields2, hfields2, hget2⟩ := json_index_ok hdesc
  injection hfields2 with hfe; subst hfe
  rw [hget] at hget2
  injection hget2 with hde; subst hde
  exact ⟨fields, items, response_json_ok hj, hget, hitems, tbl, htbl⟩

/-- C8: `get_collections` and `get_description` each issue a single GET
request with no body and no query string (their route suffixes contain no
`?` or `=`), to `/list_collections` and `/describe`, and their returned
value is the `coverages` (resp. `description`) field of the JSON body. -/
theorem C8_collections_describe_requests :
    (∀ url resp, (get_collections url resp).1 =
      { method := "GET", url := url ++ "/list_collections", body := none }) ∧
    (∀ url resp, (get_description url resp).1 =
      { method := "GET", url := url ++ "/describe", body := none }) ∧
    ('?' ∉ "/list_collections".data ∧
     '?' ∉ "/describe".data ∧
     '=' ∉ "/list_collections".data ∧
     '=' ∉ "/describe".data) ∧
    (∀ url resp fields v, resp.body = some (.obj fields) →
      pydict_get fields "coverages" = some v → (get_collections url resp).2 = .ok v) ∧
    (∀ url resp v, (get_description url resp).2 = .ok v →
      ∃ fields, resp.body = some (.obj fields) ∧ pydict_get fields "description" = some v) := by
  refine ⟨fun _ _ => rfl, fun _ _ => rfl, ⟨by decide, by decide, by decide, by decide⟩, ?_, ?_⟩
  · intro url resp fields v hb hc
    simp [get_collections, response_json, hb, json_index, hc, Bind.bind, Except.bind]
  · intro url resp v h
    obtain ⟨fields, items, hb, hd, _, _⟩ := get_description_ok_chain h
    exact ⟨fields, hb, hd⟩

/-- C8, witness: a concrete `coverages` list is returned verbatim, and a
concrete successful `describe` call returns the `description` field. -/
theorem C8_witness :
    (get_collections "http://host"
      ⟨200, some (.obj [("coverages", .arr [.str "S2-16D-2", .str "CBERS4-MUX-2M-1"])])⟩).2 =
      .ok (.arr [.str "S2-16D-2", .str "CBERS4-MUX-2M-1"]) ∧
    (∃ fields,
      (⟨200, some (.obj [("description", .arr [.obj
        [("Code", .str "sos_t"), ("Name", .str "Start of season"),
         ("Description", .str "season start date"), ("Method", .str "first derivative"),
         ("Value", .bool false), ("Time", .bool true)]])])⟩ : Response).body =
        some (.obj fields) ∧
      pydict_get fields "description" = some (.arr [.obj
        [("Code", .str "sos_t"), ("Name", .str "Start of season"),
         ("Description", .str "season start date"), ("Method", .str "first derivative"),
         ("Value", .bool false), ("Time", .bool true)]])) :=
  ⟨C8_collections_describe_requests.2.2.2.1 "http://host"
      ⟨200, some (.obj [("coverages", .arr [.str "S2-16D-2", .str "CBERS4-MUX-2M-1"])])⟩
      [("coverages", .arr [.str "S2-16D-2", .str "CBERS4-MUX-2M-1"])]
      (.arr [.str "S2-16D-2", .str "CBERS4-MUX-2M-1"]) rfl rfl,
   C8_collections_describe_requests.2.2.2.2 "http://host"
      ⟨200, some (.obj [("description", .arr [.obj
        [("Code", .str "sos_t"), ("Name", .str "Start of season"),
         ("Description", .str "season start date"), ("Method", .str "first derivative"),
         ("Value", .bool false), ("Time", .bool true)]])])⟩
      (.arr [.obj
        [("Code", .str "sos_t"), ("Name", .str "Start of season"),
         ("Description", .str "season start date"), ("Method", .str "first derivative"),
         ("Value", .bool false), ("Time", .bool true)]]) rfl⟩

/-- C10: whatever `get_description` returns is exactly the `description`
field of the body — the HTML table never reaches the result — yet the
call fails whenever any item of the `description` list is a dict lacking
one of the six column keys, because the discarded table indexes every
item by them. -/
theorem C10_value_independent_of_table :
    (∀ url resp v, (get_description url resp).2 = .ok v →
      ∃ fields, resp.body = some (.obj fields) ∧ pydict_get fields "description" = some v) ∧
    (∀ url resp fields items item k,
      resp.body = some (.obj fields) →
      pydict_get fields "description" = some (.arr items) →
      item ∈ items →
      k ∈ (["Code", "Name", "Description", "Method", "Value", "Time"] : List String) →
      (∀ f2, item = .obj f2 → pydict_get f2 k = none) →
      ∃ e, (get_description url resp).2 = .error e) := by
  constructor
  · intro url resp v h
    obtain ⟨fields, items, hb, hd, _, _⟩ := get_description_ok_chain h
    exact ⟨fields, hb, hd⟩
  · intro url resp fields items item k hb hd hmem hk hmissing
    cases hres : (get_description url resp).2 with
    | error e => exact ⟨e, rfl⟩
    | ok v =>
      exfalso
      obtain ⟨fields2, items2, hb2, hd2, hiter, s, htbl⟩ := get_description_ok_chain hres
      rw [hb] at hb2
      injection hb2 with hb2
      injection hb2 with hb2
      subst hb2
      rw [hd] at hd2
      injection hd2 with hd2
      subst hd2
      simp only [as_py_iter] at hiter
      injection hiter with hiter
      subst hiter
      obtain ⟨r, hrow⟩ := build_html_table_from_ok htbl item hmem
      obtain ⟨f2, hobj, hkeys⟩ := build_html_row_ok hrow
      obtain ⟨w, hw⟩ := hkeys k hk
      rw [hmissing f2 hobj] at hw
      cases hw

/-- C10, witness: a description list whose only item lacks `Code` makes
the call fail, and the concrete failure is the `KeyError` on `Code`. -/
theorem C10_witness :
    (∃ e, (get_description "http://host"
      ⟨200, some (.obj [("description", .arr [.obj [("Name", .str "Start of season")]])])⟩).2 =
        .error e) ∧
    (get_description "http://host"
      ⟨200, some (.obj [("description", .arr [.obj [("Name", .str "Start of season")]])])⟩).2 =
      .error (.keyError "Code") :=
  ⟨C10_value_independent_of_table.2 "http://host"
      ⟨200, some (.obj [("description", .arr [.obj [("Name", .str "Start of season")]])])⟩
      [("description", .arr [.obj [("Name", .str "Start of season")]])]
      [.obj [("Name", .str "Start of season")]]
      (.obj [("Name", .str "Start of season")]) "Code" rfl rfl
      (List.mem_cons_self _ _) (List.mem_cons_self _ _)
      (fun f2 h => by injection h with h2; subst h2; rfl),
   rfl⟩

/-- `linSeq` has the requested length. -/
theorem linSeq_length (b a : ℚ) : ∀ n, (linSeq b a n).length = n := by
  intro n
  induction n generalizing b with
  | zero => rfl
  | succ k ih => simp [linSeq, ih]

/-- Peeling the last element of a linear series. -/
theorem linSeq_snoc : ∀ (n : ℕ) (b a : ℚ),
    linSeq b a (n + 1) = linSeq b a n ++ [b + a * (n : ℚ)] := by
  intro n
  induction n with
  | zero => intro b a; simp [linSeq]
  | succ k ih =>
    intro b a
    show b :: linSeq (b + a) a (k + 1) = (b :: linSeq (b + a) a k) ++ [b + a * ((k + 1 : ℕ) : ℚ)]
    rw [ih (b + a) a,
      show ((k + 1 : ℕ) : ℚ) = (k : ℚ) + 1 from by push_cast; ring,
      show b + a * ((k : ℚ) + 1) = (b + a) + a * (k : ℚ) from by ring]
    rfl

/-- A list whose entries lie on the line `i ↦ b + a·i` is a `linSeq`. -/
theorem linSeq_of_pointwise : ∀ (ts : List ℚ) (b a : ℚ),
    (∀ i (h : i < ts.length), ts.get ⟨i, h⟩ = b + a * (i : ℚ)) →
    ts = linSeq b a ts.length := by
  intro ts
  induction ts with
  | nil => intro b a _; rfl
  | cons x rest ih =>
    intro b a hp
    have hx : x = b := by simpa using hp 0 (by simp)
    have hrest : rest = linSeq (b + a) a rest.length := by
      apply ih
      intro i h
      have h2 := hp (i + 1) (by simpa using Nat.succ_lt_succ h)
      simp only [List.get_cons_succ] at h2
      rw [h2]
      push_cast
      ring
    show x :: rest = b :: linSeq (b + a) a rest.length
    exact congrArg₂ List.cons hx hrest

/-- One step of the moving average. -/
theorem movavg3_cons (a1 a2 a3 : ℚ) (rest : List ℚ) :
    movavg3 (a1 :: a2 :: a3 :: rest) = (a1 + a2 + a3) / 3 :: movavg3 (a2 :: a3 :: rest) := by
  simp [movavg3]

/-- The moving average of a two-element list is empty. -/
theorem movavg3_two (a1 a2 : ℚ) : movavg3 [a1, a2] = [] := by
  simp [movavg3]

/-- The width-3 moving average of a linear series drops its first and
last points and is otherwise unchanged. -/
theorem movavg3_linSeq : ∀ (m : ℕ) (b a : ℚ),
    movavg3 (linSeq b a (m + 3)) = linSeq (b + a) a (m + 1) := by
  intro m
  induction m with
  | zero =>
    intro b a
    show movavg3 [b, b + a, b + a + a] = [b + a]
    rw [movavg3_cons, movavg3_two,
      show (b + (b + a) + (b + a + a)) / 3 = b + a from by ring]
  | succ n ih =>
    intro b a
    have e0 : linSeq b a (n + 1 + 3) =
        b :: (b + a) :: (b + a + a) :: linSeq (b + a + a + a) a (n + 1) := rfl
    rw [e0, movavg3_cons]
    have e1 : (b + a) :: (b + a + a) :: linSeq (b + a + a + a) a (n + 1) =
        linSeq (b + a) a (n + 3) := rfl
    rw [e1, ih (b + a) a]
    show (b + (b + a) + (b + a + a)) / 3 :: linSeq (b + a + a) a (n + 1) =
      (b + a) :: linSeq (b + a + a) a (n + 1)
    rw [show (b + (b + a) + (b + a + a)) / 3 = b + a from by ring]

/-- The equation of `savgol_filter` at window 3, order 1, on a series of
length at least three. -/
theorem savgol_filter_eq (x0 x1 x2 z0 z1 z2 : ℚ) (rest rev3 : List ℚ)
    (hrev : (x0 :: x1 :: x2 :: rest).reverse = z0 :: z1 :: z2 :: rev3) :
    savgol_filter (x0 :: x1 :: x2 :: rest) 3 1 =
      some (savgol_edge_start x0 x1 x2 ::
        (movavg3 (x0 :: x1 :: x2 :: rest) ++ [savgol_edge_end z2 z1 z0])) := by
  unfold savgol_filter
  rw [if_pos ⟨rfl, rfl⟩, hrev]

/-- The last three entries of a linear series. -/
theorem linSeq_reverse_three (b a : ℚ) (m : ℕ) :
    (linSeq b a (m + 3)).reverse =
      (b + a * ((m : ℚ) + 2)) :: (b + a * ((m : ℚ) + 1)) :: (b + a * (m : ℚ)) ::
        (linSeq b a m).reverse := by
  have s1 := linSeq_snoc m b a
  have s2 := linSeq_snoc (m + 1) b a
  have s3 := linSeq_snoc (m + 2) b a
  rw [s3, s2, s1]
  simp only [List.reverse_append, List.reverse_cons, List.reverse_nil, List.nil_append,
    List.cons_append, List.append_assoc, List.singleton_append, List.cons.injEq]
  refine ⟨by push_cast; ring, by push_cast; ring, trivial⟩

/-- The filter is the identity on linear series: the interior moving
averages and both edge fits reproduce the line exactly. -/
theorem savgol_filter_linSeq (m : ℕ) (b a : ℚ) :
    savgol_filter (linSeq b a (m + 3)) 3 1 = some (linSeq b a (m + 3)) := by
  have hR : linSeq b a (m + 3) =
      b :: (linSeq (b + a) a (m + 1) ++ [(b + a) + a * ((m + 1 : ℕ) : ℚ)]) := by
    show b :: linSeq (b + a) a (m + 2) = _
    exact congrArg (List.cons b) (linSeq_snoc (m + 1) (b + a) a)
  have heq := savgol_filter_eq b (b + a) (b + a + a)
    (b + a * ((m : ℚ) + 2)) (b + a * ((m : ℚ) + 1)) (b + a * (m : ℚ))
    (linSeq (b + a + a + a) a m) (linSeq b a m).reverse
    (linSeq_reverse_three b a m)
  rw [show linSeq b a (m + 3) =
      b :: (b + a) :: (b + a + a) :: linSeq (b + a + a + a) a m from rfl, heq,
    show b :: (b + a) :: (b + a + a) :: linSeq (b + a + a + a) a m =
      linSeq b a (m + 3) from rfl,
    movavg3_linSeq m b a]
  conv_rhs => rw [hR]
  refine congrArg some (congrArg₂ List.cons ?_
    (congrArg (fun l => linSeq (b + a) a (m + 1) ++ l) (congrArg (fun q => [q]) ?_)))
  · show (b + (b + a) + (b + a + a)) / 3 - ((b + a + a) - b) / 2 = b
    ring
  · show (b + a * (m : ℚ) + (b + a * ((m : ℚ) + 1)) + (b + a * ((m : ℚ) + 2))) / 3 +
      ((b + a * ((m : ℚ) + 2)) - (b + a * (m : ℚ))) / 2 = (b + a) + a * ((m + 1 : ℕ) : ℚ)
    push_cast
    ring

/-- C4: with method `'savitsky'`, window length 3 and polyorder 1, the
smoothed series has the same length as the input whenever the input has
at least 3 points, and the call fails on every shorter input. -/
theorem C4_smooth_length_invariant :
    (∀ ts : List ℚ, 3 ≤ ts.length →
      ∃ ys, smooth_timeseries ts "savitsky" 3 1 = some ys ∧ ys.length = ts.length) ∧
    (∀ ts : List ℚ, ts.length < 3 → smooth_timeseries ts "savitsky" 3 1 = none) := by
  constructor
  · intro ts h
    rcases ts with _ | ⟨x0, _ | ⟨x1, _ | ⟨x2, rest⟩⟩⟩
    · simp at h
    · simp at h
    · simp at h
    rcases hrev : (x0 :: x1 :: x2 :: rest).reverse with _ | ⟨z0, _ | ⟨z1, _ | ⟨z2, rev3⟩⟩⟩
    · have := congrArg List.length hrev; simp at this
    · have := congrArg List.length hrev; simp at this
    · have := congrArg List.length hrev; simp at this
    refine ⟨savgol_edge_start x0 x1 x2 ::
      (movavg3 (x0 :: x1 :: x2 :: rest) ++ [savgol_edge_end z2 z1 z0]), ?_, ?_⟩
    · rw [smooth_timeseries, if_pos rfl]
      exact savgol_filter_eq x0 x1 x2 z0 z1 z2 rest rev3 hrev
    · simp [movavg3_length]
  · intro ts h
    rcases ts with _ | ⟨x0, _ | ⟨x1, _ | ⟨x2, rest⟩⟩⟩
    · rfl
    · rfl
    · rfl
    · simp at h; omega

/-- C4, witness: a three-point series is smoothed to a three-point
series, and a two-point series makes the call fail. -/
theorem C4_witness :
    (∃ ys, smooth_timeseries [2, 4, 6] "savitsky" 3 1 = some ys ∧
      ys.length = ([2, 4, 6] : List ℚ).length) ∧
    smooth_timeseries [2, 4] "savitsky" 3 1 = none :=
  ⟨C4_smooth_length_invariant.1 [2, 4, 6] (by simp),
   C4_smooth_length_invariant.2 [2, 4] (by simp)⟩

/-- C5: smoothing (window 3, order 1) is the identity on every series of
length at least 3 whose values lie exactly on a line `i ↦ b + a·i` — and
with exact rational arithmetic the output equals the input exactly, not
merely within a floating-point tolerance. -/
theorem C5_linear_series_fixed_point (a b : ℚ) (ts : List ℚ)
    (hlen : 3 ≤ ts.length)
    (hlin : ∀ i (h : i < ts.length), ts.get ⟨i, h⟩ = b + a * (i : ℚ)) :
    smooth_timeseries ts "savitsky" 3 1 = some ts := by
  have hts := linSeq_of_pointwise ts b a hlin
  obtain ⟨m, hm⟩ : ∃ m, ts.length = m + 3 := ⟨ts.length - 3, by omega⟩
  rw [hm] at hts
  rw [hts, smooth_timeseries, if_pos rfl]
  exact savgol_filter_linSeq m b a

/-- C5, witness: the linear series `[1, 3, 5, 7]` is returned
unchanged. -/
theorem C5_witness :
    smooth_timeseries [1, 3, 5, 7] "savitsky" 3 1 = some [1, 3, 5, 7] :=
  C5_linear_series_fixed_point 2 1 [1, 3, 5, 7] (by simp)
    (by
      intro i h
      simp only [List.length_cons, List.length_nil] at h
      interval_cases i <;> norm_num)

/-- The equation of `plot_phenometrics` when its guards succeed. -/
theorem plot_phenometrics_eq (band : String) (ds : DsPhenos) (y_new : List ℚ) (pd : ℤ)
    (hsm : smooth_timeseries ds.values "savitsky" 3 1 = some y_new)
    (hpd : strptime_Ymd (dateOnly ds.phenometrics.pos_t) = some pd) :
    plot_phenometrics band ds = some
      (ChartElem.trace "LIOS" "lines" (lios_x ds.phenometrics) (lios_y ds.phenometrics) ::
        [.trace band "lines" ds.timeline ds.values,
         .trace ("Smooth " ++ band) "lines" ds.timeline y_new,
         .trace "LOS" "lines"
           [dateOnly ds.phenometrics.sos_t, dateOnly ds.phenometrics.eos_t]
           [ds.phenometrics.sos_v, ds.phenometrics.eos_v],
         .trace "AOS" "lines"
           [dateOnly ds.phenometrics.pos_t, dateOnly ds.phenometrics.pos_t]
           [ds.phenometrics.pos_v, 0],
         .trace "SOS" "markers" [dateOnly ds.phenometrics.sos_t] [ds.phenometrics.sos_v],
         .trace "POS" "markers" [dateOnly ds.phenometrics.pos_t] [ds.phenometrics.pos_v],
         .trace "EOS" "markers" [dateOnly ds.phenometrics.eos_t] [ds.phenometrics.eos_v],
         .trace "VOS" "markers" [dateOnly ds.phenometrics.vos_t] [ds.phenometrics.vos_v]]) := by
  unfold plot_phenometrics
  rw [hsm, hpd]
  rfl

/-- The equation of `plot_phenometrics_matplotlib` when its guards
succeed. -/
theorem plot_phenometrics_matplotlib_eq (band : String) (ds : DsPhenos) (y_new : List ℚ)
    (tl : List ℤ) (sd pd ed vd : ℤ)
    (hlen : ds.timeline.length = ds.values.length)
    (hsm : smooth_timeseries ds.values "savitsky" 3 1 = some y_new)
    (htl : ds.timeline.mapM (fun t => strptime_Ymd (dateOnly t)) = some tl)
    (hsos : strptime_Ymd (dateOnly ds.phenometrics.sos_t) = some sd)
    (hpos : strptime_Ymd (dateOnly ds.phenometrics.pos_t) = some pd)
    (heos : strptime_Ymd (dateOnly ds.phenometrics.eos_t) = some ed)
    (hvos : strptime_Ymd (dateOnly ds.phenometrics.vos_t) = some vd) :
    plot_phenometrics_matplotlib band ds = some
      (ChartElem.trace "LIOS" "fill" (lios_x ds.phenometrics) (lios_y ds.phenometrics) ::
        [.trace band "lines" (ds.timeline.map dateOnly) ds.values,
         .trace ("Smooth " ++ band) "lines" (ds.timeline.map dateOnly) y_new,
         .trace "LOS" "lines"
           [dateOnly ds.phenometrics.sos_t, dateOnly ds.phenometrics.eos_t]
           [ds.phenometrics.sos_v, ds.phenometrics.eos_v],
         .trace "AOS" "lines"
           [dateOnly ds.phenometrics.pos_t, dateOnly ds.phenometrics.pos_t]
           [ds.phenometrics.pos_v, 0],
         .trace "SOS" "markers" [dateOnly ds.phenometrics.sos_t] [ds.phenometrics.sos_v],
         .trace "POS" "markers" [dateOnly ds.phenometrics.pos_t] [ds.phenometrics.pos_v],
         .trace "EOS" "markers" [dateOnly ds.phenometrics.eos_t] [ds.phenometrics.eos_v],
         .trace "VOS" "markers" [dateOnly ds.phenometrics.vos_t] [ds.phenometrics.vos_v]]) := by
  unfold plot_phenometrics_matplotlib
  rw [if_pos hlen, hsm, htl, hsos, hpos, heos, hvos]
  rfl

/-- The equation of `plot_advanced_phenometrics` when its guards
succeed. -/
theorem plot_advanced_phenometrics_eq (band : String) (ds : DsPhenosRegion) (y_new : List ℚ)
    (pd s e : ℤ)
    (hsm : smooth_timeseries ds.timeseries "savitsky" 3 1 = some y_new)
    (hpos : strptime_Ymd (dateOnly ds.phenometrics.pos_t) = some pd)
    (hsos : strptime_Ymd (dateOnly ds.phenometrics.sos_t) = some s)
    (heos : strptime_Ymd (dateOnly ds.phenometrics.eos_t) = some e) :
    plot_advanced_phenometrics band ds = some
      [.trace "LIOS" "lines" (lios_x ds.phenometrics) (lios_y ds.phenometrics),
       .trace band "lines" (ds.timeline.take 21) (ds.timeseries.take 21),
       .trace ("Smooth " ++ band) "lines" (ds.timeline.take 21) y_new,
       .trace "AOS" "lines"
         [dateOnly ds.phenometrics.pos_t, dateOnly ds.phenometrics.pos_t]
         [ds.phenometrics.pos_v, 0],
       .trace "SOS" "markers" [dateOnly ds.phenometrics.sos_t] [ds.phenometrics.sos_v],
       .trace "POS" "markers" [dateOnly ds.phenometrics.pos_t] [ds.phenometrics.pos_v],
       .trace "VOS" "markers" [dateOnly ds.phenometrics.vos_t] [ds.phenometrics.vos_v],
       .trace "EOS" "markers" [dateOnly ds.phenometrics.eos_t] [ds.phenometrics.eos_v],
       .vrect (s - 16) (s + 16),
       .vrect (e - 16) (e + 16)] := by
  unfold plot_advanced_phenometrics
  rw [hsm, hpos, hsos, heos]
  rfl

/-- C6: whenever the point-query chart builders run to completion, the
LIOS fill trace they add first is exactly the closed five-vertex path
(sos_t, 0), (sos_t, sos_v), (pos_t, pos_v), (eos_t, eos_v), (eos_t, 0):
it has exactly 5 vertices and its first and last vertices have y = 0. -/
theorem C6_lios_five_vertex_path :
    (∀ (band : String) (ds : DsPhenos),
      (smooth_timeseries ds.values "savitsky" 3 1).isSome = true →
      (strptime_Ymd (dateOnly ds.phenometrics.pos_t)).isSome = true →
      ∃ rest, plot_phenometrics band ds = some
          (ChartElem.trace "LIOS" "lines" (lios_x ds.phenometrics) (lios_y ds.phenometrics) :: rest) ∧
        (lios_x ds.phenometrics).zip (lios_y ds.phenometrics) = lios_claimed_path ds.phenometrics ∧
        (lios_claimed_path ds.phenometrics).length = 5 ∧
        (lios_y ds.phenometrics).head? = some 0 ∧
        (lios_y ds.phenometrics).getLast? = some 0) ∧
    (∀ (band : String) (ds : DsPhenos),
      ds.timeline.length = ds.values.length →
      (smooth_timeseries ds.values "savitsky" 3 1).isSome = true →
      (ds.timeline.mapM (fun t => strptime_Ymd (dateOnly t))).isSome = true →
      (strptime_Ymd (dateOnly ds.phenometrics.sos_t)).isSome = true →
      (strptime_Ymd (dateOnly ds.phenometrics.pos_t)).isSome = true →
      (strptime_Ymd (dateOnly ds.phenometrics.eos_t)).isSome = true →
      (strptime_Ymd (dateOnly ds.phenometrics.vos_t)).isSome = true →
      ∃ rest, plot_phenometrics_matplotlib band ds = some
          (ChartElem.trace "LIOS" "fill" (lios_x ds.phenometrics) (lios_y ds.phenometrics) :: rest) ∧
        (lios_x ds.phenometrics).zip (lios_y ds.phenometrics) = lios_claimed_path ds.phenometrics ∧
        (lios_claimed_path ds.phenometrics).length = 5 ∧
        (lios_y ds.phenometrics).head? = some 0 ∧
        (lios_y ds.phenometrics).getLast? = some 0) := by
  constructor
  · intro band ds h1 h2
    obtain ⟨y_new, hsm⟩ := Option.isSome_iff_exists.mp h1
    obtain ⟨pd, hpd⟩ := Option.isSome_iff_exists.mp h2
    exact ⟨_, plot_phenometrics_eq band ds y_new pd hsm hpd, rfl, rfl, rfl, rfl⟩
  · intro band ds hlen h1 h2 h3 h4 h5 h6
    obtain ⟨y_new, hsm⟩ := Option.isSome_iff_exists.mp h1
    obtain ⟨tl, htl⟩ := Option.isSome_iff_exists.mp h2
    obtain ⟨sd, hsos⟩ := Option.isSome_iff_exists.mp h3
    obtain ⟨pd, hpos⟩ := Option.isSome_iff_exists.mp h4
    obtain ⟨ed, heos⟩ := Option.isSome_iff_exists.mp h5
    obtain ⟨vd, hvos⟩ := Option.isSome_iff_exists.mp h6
    exact ⟨_, plot_phenometrics_matplotlib_eq band ds y_new tl sd pd ed vd
      hlen hsm htl hsos hpos heos hvos, rfl, rfl, rfl, rfl⟩

/-- C6, witness: both builders at a concrete input. -/
theorem C6_witness :
    (∃ rest, plot_phenometrics "NDVI" C6_exDs = some
        (ChartElem.trace "LIOS" "lines" (lios_x C6_exDs.phenometrics) (lios_y C6_exDs.phenometrics) :: rest) ∧
      (lios_x C6_exDs.phenometrics).zip (lios_y C6_exDs.phenometrics) = lios_claimed_path C6_exDs.phenometrics ∧
      (lios_claimed_path C6_exDs.phenometrics).length = 5 ∧
      (lios_y C6_exDs.phenometrics).head? = some 0 ∧
      (lios_y C6_exDs.phenometrics).getLast? = some 0) ∧
    (∃ rest, plot_phenometrics_matplotlib "NDVI" C6_exDs = some
        (ChartElem.trace "LIOS" "fill" (lios_x C6_exDs.phenometrics) (lios_y C6_exDs.phenometrics) :: rest) ∧
      (lios_x C6_exDs.phenometrics).zip (lios_y C6_exDs.phenometrics) = lios_claimed_path C6_exDs.phenometrics ∧
      (lios_claimed_path C6_exDs.phenometrics).length = 5 ∧
      (lios_y C6_exDs.phenometrics).head? = some 0 ∧
      (lios_y C6_exDs.phenometrics).getLast? = some 0) :=
  ⟨C6_lios_five_vertex_path.1 "NDVI" C6_exDs rfl rfl,
   C6_lios_five_vertex_path.2 "NDVI" C6_exDs rfl rfl rfl rfl rfl rfl rfl⟩

/-- C7: only the region-query variant adds uncertainty bands — exactly
two, spanning from 16 days before to 16 days after the parsed SOS and
EOS dates (width 32 days, centered on them) — while the three
point-query variants add none. -/
theorem C7_uncertainty_bands_region_only :
    (∀ (band : String) (ds : DsPhenosRegion),
      (smooth_timeseries ds.timeseries "savitsky" 3 1).isSome = true →
      (strptime_Ymd (dateOnly ds.phenometrics.pos_t)).isSome = true →
      (strptime_Ymd (dateOnly ds.phenometrics.sos_t)).isSome = true →
      (strptime_Ymd (dateOnly ds.phenometrics.eos_t)).isSome = true →
      ∃ s e elems,
        strptime_Ymd (dateOnly ds.phenometrics.sos_t) = some s ∧
        strptime_Ymd (dateOnly ds.phenometrics.eos_t) = some e ∧
        plot_advanced_phenometrics band ds = some elems ∧
        vrectsOf elems = [.vrect (s - 16) (s + 16), .vrect (e - 16) (e + 16)] ∧
        (s + 16) - (s - 16) = 32 ∧ (e + 16) - (e - 16) = 32 ∧
        (s - 16) + (s + 16) = 2 * s ∧ (e - 16) + (e + 16) = 2 * e) ∧
    (∀ (band : String) (ds : DsPhenos),
      (plot_phenometrics band ds).map vrectsOf =
        (plot_phenometrics band ds).map (fun _ => [])) ∧
    (∀ (band : String) (ds : DsPhenos),
      (plot_phenometrics_matplotlib band ds).map vrectsOf =
        (plot_phenometrics_matplotlib band ds).map (fun _ => [])) ∧
    (∀ (band : String) (ds : DsPhenos),
      (plot_phenometrics_seaborn band ds).map vrectsOf =
        (plot_phenometrics_seaborn band ds).map (fun _ => [])) := by
  refine ⟨?_, ?_, ?_, ?_⟩
  · intro band ds h1 h2 h3 h4
    obtain ⟨y_new, hsm⟩ := Option.isSome_iff_exists.mp h1
    obtain ⟨pd, hpos⟩ := Option.isSome_iff_exists.mp h2
    obtain ⟨s, hsos⟩ := Option.isSome_iff_exists.mp h3
    obtain ⟨e, heos⟩ := Option.isSome_iff_exists.mp h4
    exact ⟨s, e, _, hsos, heos,
      plot_advanced_phenometrics_eq band ds y_new pd s e hsm hpos hsos heos,
      rfl, by ring, by ring, by ring, by ring⟩
  · intro band ds
    cases hp : plot_phenometrics band ds with
    | none => rfl
    | some elems =>
      unfold plot_phenometrics at hp
      split at hp
      · injection hp with hp; subst hp; rfl
      · exact Option.noConfusion hp
  · intro band ds
    cases hp : plot_phenometrics_matplotlib band ds with
    | none => rfl
    | some elems =>
      unfold plot_phenometrics_matplotlib at hp
      split at hp
      · split at hp
        · injection hp with hp; subst hp; rfl
        · exact Option.noConfusion hp
      · exact Option.noConfusion hp
  · intro band ds
    cases hp : plot_phenometrics_seaborn band ds with
    | none => rfl
    | some elems =>
      unfold plot_phenometrics_seaborn at hp
      split at hp
      · split at hp
        · injection hp with hp; subst hp; rfl
        · exact Option.noConfusion hp
      · exact Option.noConfusion hp

/-- C7, witness: the region builder at a concrete input produces exactly
the two 32-day bands. -/
theorem C7_witness :
    ∃ s e elems,
      strptime_Ymd (dateOnly C7_exDs.phenometrics.sos_t) = some s ∧
      strptime_Ymd (dateOnly C7_exDs.phenometrics.eos_t) = some e ∧
      plot_advanced_phenometrics "NDVI" C7_exDs = some elems ∧
      vrectsOf elems = [.vrect (s - 16) (s + 16), .vrect (e - 16) (e + 16)] ∧
      (s + 16) - (s - 16) = 32 ∧ (e + 16) - (e - 16) = 32 ∧
      (s - 16) + (s + 16) = 2 * s ∧ (e - 16) + (e + 16) = 2 * e :=
  C7_uncertainty_bands_region_only.1 "NDVI" C7_exDs rfl rfl rfl rfl
